import Mathlib

/-!
Shallow embedding of `bitnet_mqtt_device.py` (BitNet MQTT device): the
response policy (`_should_respond`), certificate validation
(`validate_certificates`), device registration (`register_device`), the
MQTT connection callbacks (`on_mqtt_connect`, `on_mqtt_disconnect`,
`stop`) and the receive path (`on_mqtt_message`, `MqttMessage.from_dict`).
Side effects (logging) are dropped; file I/O, clock, randomness and the
HTTP responses are passed in as explicit arguments.
-/

namespace BitnetDevice

/-- `leadMatch need hay` holds when the characters of `need` appear at the
head of `hay` (used to embed Python's `in` substring test). -/
def leadMatch : List Char → List Char → Bool
  | [], _ => true
  | _ :: _, [] => false
  | a :: as, b :: bs => a == b && leadMatch as bs

/-- `subMatch need hay` embeds Python's `need in hay`: `need` occurs as a
contiguous substring of `hay` (the empty string occurs in everything). -/
def subMatch (need : List Char) : List Char → Bool
  | [] => leadMatch need []
  | b :: bs => leadMatch need (b :: bs) || subMatch need bs

/-- Python `need.lower() in hay.lower()` on strings: lower-casing is the
character-wise simple case mapping. -/
def strSub (need hay : String) : Bool :=
  subMatch (need.toList.map Char.toLower) (hay.toList.map Char.toLower)

/-- `MqttMessage` (lines 203-211): `timestamp` is abstracted to an integer
instant, `id` to a string (a UUID in the source). -/
structure MqttMessage where
  id : String
  device_id : String
  content : String
  timestamp : Int
  message_type : String
deriving Repr, DecidableEq

/-- The `response_criteria` sub-dictionary of the configuration, as read by
`_should_respond` via `.get` with defaults: `none` models an absent key.
The Python float probability is embedded as a rational. -/
structure ResponseCriteria where
  message_types : Option (List String)
  content_filters : Option (List String)
  probability : Option ℚ
  default_respond : Option Bool
deriving Repr, DecidableEq

/-- The content-filter loop of `_should_respond` (lines 424-429): Python's
first-match break is `List.any`. -/
def contentMatch (filters : List String) (content : String) : Bool :=
  filters.any (fun f => strSub f content)

/-- `BitNetMqttDevice._should_respond` (lines 407-449). The uniform draw
`random.random()` is the explicit argument `draw`. When the filter list is
non-empty and no filter matches, the code logs and falls through to the
probability gate, so only the `content_match` branch returns early. -/
def should_respond (selfDeviceId : String) (rc : ResponseCriteria)
    (m : MqttMessage) (draw : ℚ) : Bool :=
  if m.device_id == selfDeviceId then
    false
  else
    let allowed := rc.message_types.getD ["general"]
    if allowed.contains m.message_type then
      let filters := rc.content_filters.getD []
      let content_match := contentMatch filters m.content
      if content_match then
        true
      else
        let p := rc.probability.getD 1
        if p < 1 then
          if draw > p then false
          else rc.default_respond.getD true
        else
          rc.default_respond.getD true
    else
      false

/-! ### Certificate validation (`CertificateManager.validate_certificates`) -/

/-- The validity window of a parsed x509 certificate: instants are integer
seconds, mirroring `not_valid_before`/`not_valid_after`. -/
structure Cert where
  not_valid_before : Int
  not_valid_after : Int
deriving Repr, DecidableEq

/-- One entry of the `cert_files` dictionary: whether the path exists on
disk, and the outcome of reading and PEM-parsing it (`none` models the
exception path: unreadable file or parse failure). -/
structure FileEntry where
  on_disk : Bool
  parsed : Option Cert
deriving Repr, DecidableEq

/-- The `cert_files` dictionary handed to `validate_certificates`: a field
is `none` when the corresponding key is absent from the dictionary. -/
structure CertFiles where
  cert : Option FileEntry
  key : Option FileEntry
  ca : Option FileEntry
deriving Repr, DecidableEq

/-- Seconds in the 7-day renewal window (`timedelta(days=7)`). -/
def sevenDays : Int := 7 * 24 * 60 * 60

/-- `CertificateManager.validate_certificates` (lines 171-200): `now` is
`datetime.utcnow()` as an integer instant. Only the `cert` entry is ever
inspected; an exception while reading or parsing is caught and yields
`false`. The 7-day check (line 192) only logs, so it does not affect the
result. -/
def validate_certificates (files : CertFiles) (now : Int) : Bool :=
  match files.cert with
  | none => false
  | some fe =>
    if fe.on_disk = false then
      false
    else
      match fe.parsed with
      | none => false
      | some cert =>
        if cert.not_valid_after ≤ now then
          false
        else if cert.not_valid_before > now then
          false
        else
          true

/-- Whether the 7-day renewal warning of line 192 fires (a log side
effect, recorded separately from the boolean result). -/
def expiringSoonWarning (cert : Cert) (now : Int) : Bool :=
  cert.not_valid_after ≤ now + sevenDays

/-! ### Device registration (`DeviceRegistration.register_device`) and the
name selection of `BitNetMqttDevice.start` -/

/-- The `registration` section of a 200 response body. -/
structure RegSection where
  clientName : String
  authenticationName : String
deriving Repr, DecidableEq

/-- The `certificate` section of a 200 response body; `none` fields model
keys absent from the JSON object (read with `.get(..., '')`). -/
structure CertSection where
  certificate : Option String
  privateKey : Option String
  publicKey : Option String
deriving Repr, DecidableEq

/-- A response from `POST /register-device`: status code and the two
optional sections of the parsed JSON body (`none` = key absent; a missing
`registration` raises `KeyError`, a missing `certificate` takes the
`else` branch of line 82). -/
structure RegResponse where
  status_code : Nat
  registration : Option RegSection
  certificate : Option CertSection
deriving Repr, DecidableEq

/-- The certificate bundle `register_device` returns on success. -/
structure Certificates where
  client_cert : String
  client_key : String
  public_key : String
  ca_cert : Option String
deriving Repr, DecidableEq

/-- The `client_name`/`auth_name` keys of a configuration dictionary
(`none` = key absent). -/
structure ConfigNames where
  client_name : Option String
  auth_name : Option String
deriving Repr, DecidableEq

/-- `DeviceRegistration.register_device` (lines 37-91), as a function of
the registration response (`none` models a network failure, i.e. the
request itself raised) and the CA-certificate fetch outcome
(`some (status, body)`, or `none` when the GET raised). It returns the
updated `device_config` dictionary (restricted to its
`client_name`/`auth_name` keys) together with the Python return value.
Lines 61-62 mutate `device_config` before the `certificate` check of
line 65. -/
def register_device (cfg : ConfigNames) (resp : Option RegResponse)
    (caFetch : Option (Nat × String)) : ConfigNames × Option Certificates :=
  match resp with
  | none => (cfg, none)
  | some r =>
    if r.status_code = 200 then
      match r.registration with
      | none => (cfg, none)
      | some reg =>
        let cfg2 : ConfigNames :=
          { client_name := some reg.clientName
            auth_name := some reg.authenticationName }
        match r.certificate with
        | none => (cfg2, none)
        | some ci =>
          let ca : Option String :=
            match caFetch with
            | some (st, body) => if st = 200 then some body else none
            | none => none
          (cfg2, some { client_cert := ci.certificate.getD ""
                        client_key := ci.privateKey.getD ""
                        public_key := ci.publicKey.getD ""
                        ca_cert := ca })
    else
      (cfg, none)

/-- The two configuration dictionaries of a `BitNetMqttDevice`:
`self.config` (read by `start`, lines 611-612) and
`self.device_registration.device_config` (the dictionary literal of lines
334-340, mutated by `register_device`). They are distinct objects; the
literal carries no `client_name`/`auth_name` keys. -/
structure Device where
  device_id : String
  config : ConfigNames
  reg_config : ConfigNames
deriving Repr, DecidableEq

/-- `BitNetMqttDevice.__init__` restricted to the two dictionaries: the
`device_config` literal of lines 334-340 has no `client_name` or
`auth_name` key. -/
def initDevice (device_id : String) (config : ConfigNames) : Device :=
  { device_id := device_id
    config := config
    reg_config := { client_name := none, auth_name := none } }

/-- Registration performed through the device's `DeviceRegistration`
object: only `self.device_registration.device_config` is mutated. -/
def device_register (d : Device) (resp : Option RegResponse)
    (caFetch : Option (Nat × String)) : Device × Option Certificates :=
  let (rc2, res) := register_device d.reg_config resp caFetch
  ({ d with reg_config := rc2 }, res)

/-- The MQTT client id chosen by `start` (line 611):
`self.config.get("client_name", f"device-{self.device_id}")`. -/
def start_client_name (d : Device) : String :=
  d.config.client_name.getD ("device-" ++ d.device_id)

/-- The MQTT username chosen by `start` (line 612):
`self.config.get("auth_name", f"{self.device_id}-authnID")`; line 627
passes it to `username_pw_set` with an empty credential. -/
def start_auth_name (d : Device) : String :=
  d.config.auth_name.getD (d.device_id ++ "-authnID")

/-! ### Connection lifecycle (`on_mqtt_connect`, `on_mqtt_disconnect`,
`stop`) -/

/-- The connection flags of `BitNetMqttDevice` touched by the lifecycle
callbacks. -/
structure ConnState where
  is_connected : Bool
  join_message_sent : Bool
deriving Repr, DecidableEq

/-- `BitNetMqttDevice.on_mqtt_connect` (lines 475-495), returning the new
flag state and the number of presence ("joined") messages published by
this callback. -/
def on_mqtt_connect (s : ConnState) (rc : Nat) : ConnState × Nat :=
  if rc = 0 then
    if s.join_message_sent = false then
      ({ is_connected := true, join_message_sent := true }, 1)
    else
      ({ s with is_connected := true }, 0)
  else
    ({ s with is_connected := false }, 0)

/-- `BitNetMqttDevice.on_mqtt_disconnect` (lines 538-544): clears
`is_connected` whatever the reason code; `join_message_sent` is not
touched. -/
def on_mqtt_disconnect (s : ConnState) (_rc : Nat) : ConnState :=
  { s with is_connected := false }

/-- The flag resets of `BitNetMqttDevice.stop` (lines 692-694). -/
def stop_conn (_s : ConnState) : ConnState :=
  { is_connected := false, join_message_sent := false }

/-- An event hitting the connection flags: a CONNACK with reason code
`rc`, a disconnection with reason code `rc`, or an explicit `stop()`. -/
inductive ConnEv where
  | connect (rc : Nat)
  | disconnect (rc : Nat)
  | stopEv
deriving Repr, DecidableEq

/-- One lifecycle event applied to the flags, with the number of join
messages it publishes. -/
def connStep (s : ConnState) : ConnEv → ConnState × Nat
  | ConnEv.connect rc => on_mqtt_connect s rc
  | ConnEv.disconnect rc => (on_mqtt_disconnect s rc, 0)
  | ConnEv.stopEv => (stop_conn s, 0)

/-- A sequence of lifecycle events: final flags and total join messages
published. -/
def connRun (s : ConnState) : List ConnEv → ConnState × Nat
  | [] => (s, 0)
  | e :: es =>
    let (s2, n) := connStep s e
    let (s3, m) := connRun s2 es
    (s3, n + m)

/-! ### Receive path (`MqttMessage.from_dict`, `on_mqtt_message`) -/

/-- A decoded inbound JSON object, restricted to the keys the receive path
reads (`none` = key absent). The timestamp is already abstracted to an
integer instant. -/
structure Payload where
  id : Option String
  device_id : Option String
  content : Option String
  timestamp : Option Int
  message_type : Option String
deriving Repr, DecidableEq

/-- `MqttMessage.from_dict` (lines 223-235) for a payload whose
`device_id` and `content` are present: the constructor draws a fresh UUID
(`freshId`) and the current time (`now`), which lines 231-234 overwrite
when the corresponding keys are present; `message_type` defaults to
`"general"`. -/
def from_dict (did content : String) (p : Payload) (freshId : String)
    (now : Int) : MqttMessage :=
  { id := p.id.getD freshId
    device_id := did
    content := content
    timestamp := p.timestamp.getD now
    message_type := p.message_type.getD "general" }

/-- The history update of lines 519-521: append, then drop the oldest
entry when the length exceeds 100. -/
def pushHistory (hist : List MqttMessage) (m : MqttMessage) :
    List MqttMessage :=
  let h := hist ++ [m]
  if h.length > 100 then h.drop 1 else h

/-- `BitNetMqttDevice.on_mqtt_message` (lines 497-532) after a successful
JSON decode of the payload: returns the new history and whether a
response dispatch was started. A payload missing `device_id` or `content`
returns early (lines 507-512) leaving the history unchanged. -/
def on_mqtt_message (selfDeviceId : String) (rc : ResponseCriteria)
    (hist : List MqttMessage) (p : Payload) (freshId : String) (now : Int)
    (draw : ℚ) : List MqttMessage × Bool :=
  match p.device_id with
  | none => (hist, false)
  | some did =>
    match p.content with
    | none => (hist, false)
    | some content =>
      let m := from_dict did content p freshId now
      let hist2 := pushHistory hist m
      (hist2, should_respond selfDeviceId rc m draw)

end BitnetDevice

namespace BitnetDevice

/- Scratch checks of the policy on concrete inputs. -/

example :
    should_respond "me"
      ⟨none, none, some 0, some true⟩
      ⟨"i", "other", "hello", 0, "general"⟩ 0 = true := by decide

example :
    should_respond "me"
      ⟨none, none, some 0, some true⟩
      ⟨"i", "other", "hello", 0, "general"⟩ (mkRat 1 2) = false := by decide

example :
    should_respond "me"
      ⟨none, some ["HELP"], some 0, some false⟩
      ⟨"i", "other", "please help me", 0, "general"⟩ (mkRat 1 2) = true := by decide

/-! ### Lemmas on the connection lifecycle -/

/-- Once the join flag is set, any stop-free event sequence publishes no
further join message and leaves the flag set. -/
lemma connRun_flag_true (evs : List ConnEv) :
    ∀ s : ConnState, (∀ e ∈ evs, e ≠ ConnEv.stopEv) →
      s.join_message_sent = true →
      (connRun s evs).2 = 0 ∧ (connRun s evs).1.join_message_sent = true := by
  induction evs with
  | nil => intro s _ hflag; exact ⟨rfl, hflag⟩
  | cons e es ih =>
    intro s hns hflag
    have hes : ∀ x ∈ es, x ≠ ConnEv.stopEv := fun x hx =>
      hns x (List.mem_cons_of_mem e hx)
    cases e with
    | connect rc =>
      by_cases h0 : rc = 0
      · subst h0
        have := ih { s with is_connected := true } hes hflag
        simpa [connRun, connStep, on_mqtt_connect, hflag] using this
      · have := ih { s with is_connected := false } hes hflag
        simpa [connRun, connStep, on_mqtt_connect, h0] using this
    | disconnect rc =>
      have := ih { s with is_connected := false } hes hflag
      simpa [connRun, connStep, on_mqtt_disconnect] using this
    | stopEv => exact absurd rfl (hns ConnEv.stopEv (List.mem_cons_self _ _))

/-- A stop-free event sequence publishes at most one join message. -/
lemma connRun_le_one (evs : List ConnEv) :
    ∀ s : ConnState, (∀ e ∈ evs, e ≠ ConnEv.stopEv) →
      (connRun s evs).2 ≤ 1 := by
  induction evs with
  | nil => intro s _; simp [connRun]
  | cons e es ih =>
    intro s hns
    have hes : ∀ x ∈ es, x ≠ ConnEv.stopEv := fun x hx =>
      hns x (List.mem_cons_of_mem e hx)
    cases e with
    | connect rc =>
      by_cases h0 : rc = 0
      · subst h0
        cases hflag : s.join_message_sent with
        | false =>
          have := (connRun_flag_true es
            { is_connected := true, join_message_sent := true } hes rfl).1
          simp [connRun, connStep, on_mqtt_connect, hflag, this]
        | true =>
          have := ih { s with is_connected := true } hes
          simpa [connRun, connStep, on_mqtt_connect, hflag] using this
      · have := ih { s with is_connected := false } hes
        simpa [connRun, connStep, on_mqtt_connect, h0] using this
    | disconnect rc =>
      have := ih { s with is_connected := false } hes
      simpa [connRun, connStep, on_mqtt_disconnect] using this
    | stopEv => exact absurd rfl (hns ConnEv.stopEv (List.mem_cons_self _ _))

/-- Any sequence of disconnections and failed connection attempts keeps
the join flag clear and publishes nothing. -/
lemma connRun_idle (evs : List ConnEv)
    (hevs : ∀ e ∈ evs, e ≠ ConnEv.stopEv ∧ e ≠ ConnEv.connect 0) :
    ∀ s : ConnState, s.join_message_sent = false →
      (connRun s evs).2 = 0 ∧ (connRun s evs).1.join_message_sent = false := by
  induction evs with
  | nil => intro s hflag; exact ⟨rfl, hflag⟩
  | cons e es ih =>
    intro s hflag
    have hes : ∀ x ∈ es, x ≠ ConnEv.stopEv ∧ x ≠ ConnEv.connect 0 :=
      fun x hx => hevs x (List.mem_cons_of_mem e hx)
    have he := hevs e (List.mem_cons_self _ _)
    cases e with
    | connect rc =>
      have h0 : rc ≠ 0 := fun h => he.2 (by rw [h])
      have := ih hes { s with is_connected := false } hflag
      simpa [connRun, connStep, on_mqtt_connect, h0] using this
    | disconnect rc =>
      have := ih hes { s with is_connected := false } hflag
      simpa [connRun, connStep, on_mqtt_disconnect] using this
    | stopEv => exact absurd rfl he.1

/-- `connRun` over an appended sequence: states compose and join counts
add. -/
lemma connRun_append (evs fs : List ConnEv) :
    ∀ s : ConnState,
      (connRun s (evs ++ fs)).1 = (connRun (connRun s evs).1 fs).1 ∧
      (connRun s (evs ++ fs)).2 =
        (connRun s evs).2 + (connRun (connRun s evs).1 fs).2 := by
  induction evs with
  | nil => intro s; simp [connRun]
  | cons e es ih =>
    intro s
    rcases hstep : connStep s e with ⟨s2, n⟩
    have h := ih s2
    simp only [List.cons_append, connRun, hstep, List.append_eq]
    exact ⟨h.1, by rw [h.2]; omega⟩

/-! ### Claim theorems -/

/-- C2 counterexample: after a broker-initiated connection loss
(`on_mqtt_disconnect` with non-zero reason code) from a connected state
with the join flag set, the state is Disconnected yet `join_message_sent`
is still `true` — the claim that the flag is reset on every transition
back to Disconnected is false on the code. -/
theorem C2_counterexample :
    (on_mqtt_disconnect ⟨true, true⟩ 1).is_connected = false ∧
      (on_mqtt_disconnect ⟨true, true⟩ 1).join_message_sent = true := by
  decide

/-- C2 (amended): `join_message_sent` is set at most once per connected
episode — a successful CONNACK publishes a join only when the flag is
clear and then sets it — but a disconnection (broker-initiated or clean)
leaves the flag unchanged while clearing `is_connected`; only an explicit
`stop()` resets the flag to `false`. -/
theorem C2_amended (s : ConnState) (rc : Nat) :
    (on_mqtt_disconnect s rc).is_connected = false ∧
      (on_mqtt_disconnect s rc).join_message_sent = s.join_message_sent ∧
      (stop_conn s).join_message_sent = false ∧
      (on_mqtt_connect s 0).2 = (if s.join_message_sent then 0 else 1) ∧
      (on_mqtt_connect s 0).1.join_message_sent = true := by
  refine ⟨rfl, rfl, rfl, ?_, ?_⟩ <;>
    cases hflag : s.join_message_sent <;>
      simp [on_mqtt_connect, hflag]

/-- C7: over any stop-free event sequence the join presence message is
published at most once, and never once the flag is already set (so
re-connections within the same run never re-announce); after `stop()`,
any run of disconnections and failed connection attempts followed by the
next successful connection publishes exactly one new join message. -/
theorem C7_join_once :
    (∀ (s : ConnState) (evs : List ConnEv),
        (∀ e ∈ evs, e ≠ ConnEv.stopEv) → s.join_message_sent = true →
        (connRun s evs).2 = 0) ∧
    (∀ (s : ConnState) (evs : List ConnEv),
        (∀ e ∈ evs, e ≠ ConnEv.stopEv) → (connRun s evs).2 ≤ 1) ∧
    (∀ (s : ConnState) (evs : List ConnEv),
        (∀ e ∈ evs, e ≠ ConnEv.stopEv ∧ e ≠ ConnEv.connect 0) →
        (connRun (stop_conn s) (evs ++ [ConnEv.connect 0])).2 = 1) := by
  refine ⟨fun s evs hns hflag => (connRun_flag_true evs s hns hflag).1,
    fun s evs hns => connRun_le_one evs s hns, fun s evs hevs => ?_⟩
  have hidle := connRun_idle evs hevs (stop_conn s) rfl
  rw [(connRun_append evs [ConnEv.connect 0] (stop_conn s)).2, hidle.1]
  simp [connRun, connStep, on_mqtt_connect, hidle.2]

/-- C7 witness: concrete instantiation of the third conjunct — stop from a
connected, already-announced state, then an unexpected disconnection and a
failed connection attempt, then a successful connection: exactly one join
message is published. -/
theorem C7_join_once_witness :
    (connRun (stop_conn ⟨true, true⟩)
      ([ConnEv.disconnect 1, ConnEv.connect 5] ++ [ConnEv.connect 0])).2 = 1 :=
  C7_join_once.2.2 ⟨true, true⟩ [ConnEv.disconnect 1, ConnEv.connect 5]
    (by decide)

/-- C3 counterexample: a `cert_files` dictionary holding a readable,
currently valid client certificate but no private-key and no CA entry is
accepted by `validate_certificates` — the claim that a missing private
key or CA certificate makes it return `false` fails on the code, which
only ever inspects the `cert` entry. -/
theorem C3_counterexample :
    validate_certificates
        { cert := some { on_disk := true, parsed := some ⟨0, 10000000⟩ }
          key := none, ca := none } 100 = true := by
  decide

/-- C3 (amended): `validate_certificates` fails closed with respect to the
client certificate only — it returns `false` when the `cert` entry is
absent, the file is missing, or reading/parsing fails, and when the
certificate is expired or not yet valid; it returns `true` whenever the
client certificate is present, readable and currently valid (the 7-day
renewal window only triggers a warning log), regardless of the `key` and
`ca` entries. -/
theorem C3_amended (files : CertFiles) (now : Int) :
    (files.cert = none → validate_certificates files now = false) ∧
    (∀ fe, files.cert = some fe → fe.on_disk = false →
      validate_certificates files now = false) ∧
    (∀ fe, files.cert = some fe → fe.parsed = none →
      validate_certificates files now = false) ∧
    (∀ fe cert, files.cert = some fe → fe.parsed = some cert →
      cert.not_valid_after ≤ now → validate_certificates files now = false) ∧
    (∀ fe cert, files.cert = some fe → fe.parsed = some cert →
      cert.not_valid_before > now → validate_certificates files now = false) ∧
    (∀ fe cert, files.cert = some fe → fe.on_disk = true →
      fe.parsed = some cert → cert.not_valid_before ≤ now →
      now < cert.not_valid_after → validate_certificates files now = true) := by
  refine ⟨?_, ?_, ?_, ?_, ?_, ?_⟩
  · intro h; simp [validate_certificates, h]
  · intro fe hcert hdisk
    simp [validate_certificates, hcert, hdisk]
  · intro fe hcert hparse
    cases hdisk : fe.on_disk <;>
      simp [validate_certificates, hcert, hdisk, hparse]
  · intro fe cert hcert hparse hexp
    cases hdisk : fe.on_disk <;>
      simp [validate_certificates, hcert, hdisk, hparse, hexp]
  · intro fe cert hcert hparse hfuture
    cases hdisk : fe.on_disk
    · simp [validate_certificates, hcert, hdisk, hparse]
    · simp [validate_certificates, hcert, hdisk, hparse]
      omega
  · intro fe cert hcert hdisk hparse hnb hna
    have h1 : ¬ cert.not_valid_after ≤ now := by omega
    have h2 : ¬ cert.not_valid_before > now := by omega
    simp [validate_certificates, hcert, hdisk, hparse, h1, h2]

/-- C3 witness: on a concrete bundle (valid window `[0, 10^7)`, checked at
time 100, with `key` and `ca` entries present) the amended theorem's last
conjunct evaluates to `true`. -/
theorem C3_amended_witness :
    validate_certificates
        { cert := some { on_disk := true, parsed := some ⟨0, 10000000⟩ }
          key := some { on_disk := true, parsed := none }
          ca := some { on_disk := true, parsed := none } } 100 = true :=
  (C3_amended
      { cert := some { on_disk := true, parsed := some ⟨0, 10000000⟩ }
        key := some { on_disk := true, parsed := none }
        ca := some { on_disk := true, parsed := none } } 100).2.2.2.2.2
    { on_disk := true, parsed := some ⟨0, 10000000⟩ } ⟨0, 10000000⟩
    rfl rfl rfl (by decide) (by decide)

/-- C6: certificate validity is boundary-exact — with the client
certificate present and readable, a `not_valid_after` in the past fails
validation, a `not_valid_after` exactly equal to now fails, and a
`not_valid_after` one second in the future (with `not_valid_before` not
after now) passes. -/
theorem C6_boundary (files : CertFiles) (fe : FileEntry) (cert : Cert)
    (now : Int) (hcert : files.cert = some fe) (hdisk : fe.on_disk = true)
    (hparse : fe.parsed = some cert) :
    (cert.not_valid_after < now → validate_certificates files now = false) ∧
    (cert.not_valid_after = now → validate_certificates files now = false) ∧
    (cert.not_valid_after = now + 1 → cert.not_valid_before ≤ now →
      validate_certificates files now = true) := by
  refine ⟨?_, ?_, ?_⟩
  · intro h
    simp [validate_certificates, hcert, hdisk, hparse]
    omega
  · intro h
    simp [validate_certificates, hcert, hdisk, hparse]
    omega
  · intro h hnb
    have h1 : ¬ cert.not_valid_after ≤ now := by omega
    have h2 : ¬ cert.not_valid_before > now := by omega
    simp [validate_certificates, hcert, hdisk, hparse, h1, h2]

/-- C6 witness: a certificate with window `[0, 101)` checked at time 100
(`not_valid_after` one second in the future) validates. -/
theorem C6_boundary_witness :
    validate_certificates
        { cert := some { on_disk := true, parsed := some ⟨0, 101⟩ }
          key := none, ca := none } 100 = true :=
  (C6_boundary
      { cert := some { on_disk := true, parsed := some ⟨0, 101⟩ }
        key := none, ca := none }
      { on_disk := true, parsed := some ⟨0, 101⟩ } ⟨0, 101⟩ 100
      rfl rfl rfl).2.2 rfl (by decide)

/-- C5 counterexample: with probability 0.0, no content filters and
`default_respond = true`, the draw 0.0 — a possible value of
`random.random()`, whose range is [0, 1) — is not strictly greater than
the probability, so the gate does not reject and `_should_respond`
returns the default `true`. The claim that the result is false for every
draw in [0, 1) fails. -/
theorem C5_counterexample :
    (0 : ℚ) ≤ 0 ∧ (0 : ℚ) < 1 ∧
      should_respond "me" ⟨none, none, some 0, some true⟩
        ⟨"i", "other", "hello", 0, "general"⟩ 0 = true := by
  refine ⟨le_refl 0, by norm_num, by decide⟩

/-- C5 (amended): with configured response probability 0.0, no content
filters and `default_respond = true`, `_should_respond` returns `false`
for every strictly positive draw in (0, 1) on a message from another
device whose type is allowed; for the draw exactly 0.0 it returns `true`
(the probability test `draw > 0` fails and the default applies). -/
theorem C5_amended (sid : String) (rc : ResponseCriteria) (m : MqttMessage)
    (hdev : m.device_id ≠ sid)
    (htype : (rc.message_types.getD ["general"]).contains m.message_type = true)
    (hprob : rc.probability = some 0)
    (hfilt : rc.content_filters.getD [] = [])
    (hdef : rc.default_respond = some true) :
    (∀ draw : ℚ, 0 < draw → draw < 1 →
      should_respond sid rc m draw = false) ∧
    should_respond sid rc m 0 = true := by
  have hbeq : (m.device_id == sid) = false := beq_eq_false_iff_ne.mpr hdev
  have hmem : m.message_type ∈ rc.message_types.getD ["general"] := by
    simpa using htype
  constructor
  · intro draw hpos _
    simp [should_respond, hbeq, hmem, hprob, hfilt, hdef, contentMatch,
      hpos]
  · simp [should_respond, hbeq, hmem, hprob, hfilt, hdef, contentMatch]

/-- C5 witness: concrete instantiation — a "general" message from another
device, probability 0.0, absent filters, default true; the draw 1/2 is
rejected and the draw 0 is accepted. -/
theorem C5_amended_witness :
    should_respond "me" ⟨none, none, some 0, some true⟩
        ⟨"i", "other", "hello", 0, "general"⟩ (mkRat 1 2) = false ∧
      should_respond "me" ⟨none, none, some 0, some true⟩
        ⟨"i", "other", "hello", 0, "general"⟩ 0 = true := by
  have h := C5_amended "me" ⟨none, none, some 0, some true⟩
    ⟨"i", "other", "hello", 0, "general"⟩ (by decide) (by decide) rfl
    (by decide) rfl
  exact ⟨h.1 (mkRat 1 2) (by norm_num) (by norm_num), h.2⟩

/-- C8: for a message from another device with an allowed type, if its
content contains some configured filter string as a case-insensitive
substring, `_should_respond` returns `true` for every probability draw
and every `default_respond` and `probability` setting. -/
theorem C8_filter_match (sid : String) (rc : ResponseCriteria)
    (m : MqttMessage) (draw : ℚ)
    (hdev : m.device_id ≠ sid)
    (htype : (rc.message_types.getD ["general"]).contains m.message_type = true)
    (hmatch : ∃ f ∈ rc.content_filters.getD [], strSub f m.content = true) :
    should_respond sid rc m draw = true := by
  have hbeq : (m.device_id == sid) = false := beq_eq_false_iff_ne.mpr hdev
  have hmem : m.message_type ∈ rc.message_types.getD ["general"] := by
    simpa using htype
  have hcm : contentMatch (rc.content_filters.getD []) m.content = true := by
    rw [contentMatch, List.any_eq_true]
    exact hmatch
  simp [should_respond, hbeq, hmem, hcm]

/-- C8 witness: the filter "HELP" matches the content "please help me"
case-insensitively, so the policy approves even with probability 0.0 and
default false. -/
theorem C8_filter_match_witness :
    should_respond "me" ⟨none, some ["xyz", "HELP"], some 0, some false⟩
      ⟨"i", "other", "please help me", 0, "general"⟩ (mkRat 1 2) = true :=
  C8_filter_match "me" ⟨none, some ["xyz", "HELP"], some 0, some false⟩
    ⟨"i", "other", "please help me", 0, "general"⟩ (mkRat 1 2)
    (by decide) (by decide) (by decide)

/-- C9: a decoded inbound payload missing `device_id` or missing `content`
is dropped — `on_mqtt_message` leaves the history unchanged and starts no
response dispatch (and, as a total function, its embedding shows the
early-return path raises nothing). -/
theorem C9_malformed_dropped (sid : String) (rc : ResponseCriteria)
    (hist : List MqttMessage) (p : Payload) (freshId : String) (now : Int)
    (draw : ℚ) (h : p.device_id = none ∨ p.content = none) :
    on_mqtt_message sid rc hist p freshId now draw = (hist, false) := by
  rcases h with h | h
  · simp [on_mqtt_message, h]
  · cases hd : p.device_id with
    | none => simp [on_mqtt_message, hd]
    | some did => simp [on_mqtt_message, hd, h]

/-- C9 witness: the payload `{"content": "hi"}` (no `device_id`) against a
one-element history: the history and the no-dispatch decision are
unchanged. -/
theorem C9_malformed_dropped_witness :
    on_mqtt_message "me" ⟨none, none, none, none⟩
        [⟨"m0", "other", "prev", 0, "general"⟩]
        ⟨none, none, some "hi", none, none⟩ "fresh" 5 0 =
      ([⟨"m0", "other", "prev", 0, "general"⟩], false) :=
  C9_malformed_dropped "me" ⟨none, none, none, none⟩
    [⟨"m0", "other", "prev", 0, "general"⟩]
    ⟨none, none, some "hi", none, none⟩ "fresh" 5 0 (Or.inl rfl)

/-- C10: a wire message with `device_id` and `content` but no
`message_type`, `id` or `timestamp` key is accepted: `from_dict` defaults
its type to "general" (which passes the default type allow-list), its id
to the freshly generated local UUID and its timestamp to the local
current time, and `on_mqtt_message` appends it to the history. -/
theorem C10_defaults (sid : String) (rc : ResponseCriteria)
    (hist : List MqttMessage) (p : Payload) (freshId did content : String)
    (now : Int) (draw : ℚ)
    (hdid : p.device_id = some did) (hcontent : p.content = some content)
    (htype : p.message_type = none) (hid : p.id = none)
    (hts : p.timestamp = none) :
    (from_dict did content p freshId now).message_type = "general" ∧
    (from_dict did content p freshId now).id = freshId ∧
    (from_dict did content p freshId now).timestamp = now ∧
    (rc.message_types = none →
      (rc.message_types.getD ["general"]).contains
        (from_dict did content p freshId now).message_type = true) ∧
    (on_mqtt_message sid rc hist p freshId now draw).1 =
      pushHistory hist (from_dict did content p freshId now) := by
  refine ⟨by simp [from_dict, htype], by simp [from_dict, hid],
    by simp [from_dict, hts], ?_, ?_⟩
  · intro hmt
    simp [from_dict, htype, hmt]
  · simp [on_mqtt_message, hdid, hcontent]

/-- C10 witness: the payload `{"device_id": "other", "content": "hi"}`
with fresh UUID "fresh" at time 5 enters the history typed "general" with
the locally generated id and timestamp. -/
theorem C10_defaults_witness :
    (from_dict "other" "hi" ⟨none, some "other", some "hi", none, none⟩
        "fresh" 5).message_type = "general" ∧
      (on_mqtt_message "me" ⟨none, none, none, none⟩ []
          ⟨none, some "other", some "hi", none, none⟩ "fresh" 5 0).1 =
        [⟨"fresh", "other", "hi", 5, "general"⟩] := by
  have h := C10_defaults "me" ⟨none, none, none, none⟩ []
    ⟨none, some "other", some "hi", none, none⟩ "fresh" "other" "hi" 5 0
    rfl rfl rfl rfl rfl
  exact ⟨h.1, by rw [h.2.2.2.2]; decide⟩

/-- C1: evaluation of the code at a failing input. A fresh device (config
without `client_name`/`auth_name`) registers successfully: the enrollment
response assigns `clientName = "client-assigned"` and
`authenticationName = "auth-assigned"`, which `register_device` records —
but only into `self.device_registration.device_config`. `start` (lines
611-612) reads `self.config`, a different dictionary, so the MQTT client
id and username it uses are the locally synthesized fallbacks
`device-dev1` / `dev1-authnID`, not the enrollment-assigned names, in
contradiction with the comment "Get the actual client name and auth name
from registration" at line 610. -/
theorem C1_names_not_propagated :
    (device_register (initDevice "dev1" ⟨none, none⟩)
        (some ⟨200, some ⟨"client-assigned", "auth-assigned"⟩,
          some ⟨some "CERTPEM", some "KEYPEM", none⟩⟩)
        (some (200, "CAPEM"))).2.isSome = true ∧
    (device_register (initDevice "dev1" ⟨none, none⟩)
        (some ⟨200, some ⟨"client-assigned", "auth-assigned"⟩,
          some ⟨some "CERTPEM", some "KEYPEM", none⟩⟩)
        (some (200, "CAPEM"))).1.reg_config =
      ⟨some "client-assigned", some "auth-assigned"⟩ ∧
    start_client_name
        (device_register (initDevice "dev1" ⟨none, none⟩)
          (some ⟨200, some ⟨"client-assigned", "auth-assigned"⟩,
            some ⟨some "CERTPEM", some "KEYPEM", none⟩⟩)
          (some (200, "CAPEM"))).1 = "device-dev1" ∧
    start_auth_name
        (device_register (initDevice "dev1" ⟨none, none⟩)
          (some ⟨200, some ⟨"client-assigned", "auth-assigned"⟩,
            some ⟨some "CERTPEM", some "KEYPEM", none⟩⟩)
          (some (200, "CAPEM"))).1 = "dev1-authnID" := by
  decide

/-- C4 counterexample: an HTTP 200 response with a `registration` section
but no `certificate` section makes `register_device` return `None` while
having already written `client_name`/`auth_name` into the device
configuration (lines 61-62 run before the check of line 65) — a failing
call with a partial effect, contradicting the claim. -/
theorem C4_counterexample :
    (register_device ⟨none, none⟩ (some ⟨200, some ⟨"cn", "an"⟩, none⟩)
        none).2 = none ∧
      (register_device ⟨none, none⟩ (some ⟨200, some ⟨"cn", "an"⟩, none⟩)
          none).1 = ⟨some "cn", some "an"⟩ := by
  decide

/-- C4 (amended): `register_device` returns `None` on every network
failure, non-200 response and malformed body, and in those first three
cases the device configuration is untouched; a 200 response with a
`registration` section and a `certificate` section returns a bundle
(with the CA entry absent when its best-effort fetch fails); but a 200
response with a `registration` section and no `certificate` section
returns `None` after having recorded the assigned names into the device
configuration. -/
theorem C4_amended (cfg : ConfigNames) (resp : Option RegResponse)
    (caFetch : Option (Nat × String)) :
    (resp = none → register_device cfg resp caFetch = (cfg, none)) ∧
    (∀ r, resp = some r → r.status_code ≠ 200 →
      register_device cfg resp caFetch = (cfg, none)) ∧
    (∀ r, resp = some r → r.registration = none →
      register_device cfg resp caFetch = (cfg, none)) ∧
    (∀ r reg, resp = some r → r.status_code = 200 →
      r.registration = some reg → r.certificate = none →
      (register_device cfg resp caFetch).2 = none ∧
        (register_device cfg resp caFetch).1 =
          ⟨some reg.clientName, some reg.authenticationName⟩) ∧
    (∀ r reg ci, resp = some r → r.status_code = 200 →
      r.registration = some reg → r.certificate = some ci → caFetch = none →
      (register_device cfg resp caFetch).2 =
        some ⟨ci.certificate.getD "", ci.privateKey.getD "",
          ci.publicKey.getD "", none⟩) := by
  refine ⟨?_, ?_, ?_, ?_, ?_⟩
  · intro h; simp [register_device, h]
  · intro r hr hst
    simp [register_device, hr, hst]
  · intro r hr hreg
    by_cases hst : r.status_code = 200 <;>
      simp [register_device, hr, hreg, hst]
  · intro r reg hr hst hreg hcert
    simp [register_device, hr, hst, hreg, hcert]
  · intro r reg ci hr hst hreg hcert hca
    simp [register_device, hr, hst, hreg, hcert, hca]

/-- C4 witness: concrete instantiations — a 500 response leaves the
configuration untouched and yields `None`; a 200 response with both
sections but a failed CA fetch yields the bundle without a CA entry. -/
theorem C4_amended_witness :
    register_device ⟨none, none⟩ (some ⟨500, some ⟨"cn", "an"⟩, none⟩) none =
      (⟨none, none⟩, none) ∧
    (register_device ⟨none, none⟩
        (some ⟨200, some ⟨"cn", "an"⟩, some ⟨some "C", some "K", none⟩⟩)
        none).2 = some ⟨"C", "K", "", none⟩ :=
  ⟨(C4_amended ⟨none, none⟩ (some ⟨500, some ⟨"cn", "an"⟩, none⟩) none).2.1
      ⟨500, some ⟨"cn", "an"⟩, none⟩ rfl (by decide),
    (C4_amended ⟨none, none⟩
        (some ⟨200, some ⟨"cn", "an"⟩, some ⟨some "C", some "K", none⟩⟩)
        none).2.2.2.2 ⟨200, some ⟨"cn", "an"⟩, some ⟨some "C", some "K", none⟩⟩
      ⟨"cn", "an"⟩ ⟨some "C", some "K", none⟩ rfl rfl rfl rfl rfl⟩

end BitnetDevice
